import Mathlib

/-!
# wsdl.hpp: flag builders, resource wrappers, colour conversion, event pump

A shallow embedding of `src/wsdl.hpp` (namespace `sdl`).

* Bit-field classes (`InitFlags`, `WindowFlags`, `RendererFlags`) are structures of `Bool`s.
* The option setters and `get()` are functions from the receiver to the pair
  `(receiver after the call, returned value)`; the setters return `*this` by value, so the
  second component is a copy.  Member functions that only read their receiver (`ok()`,
  `intern()`, the destructors, `color`) take it as an argument.
* A function that calls into SDL2 takes the `World` before the call and returns the `World`
  after it.
* `Uint32` values are `Nat`s.  Every product in the `get()` functions is a constant times
  `0` or `1`, so no arithmetic leaves the 32-bit range.
* SDL2 itself is external.  Its calls are recorded in a `World` (a log of the calls made, the
  pending event queue) and its answers are given by a `Provider`.
-/

namespace sdl

/-! ## SDL2 constants used by `wsdl.hpp` -/

/-- Modelled from the spec: `SDL_INIT_TIMER` of SDL2's `SDL.h` (header not in the repository). -/
def SDL_INIT_TIMER : Nat := 0x00000001
/-- Modelled from the spec: `SDL_INIT_AUDIO` of SDL2's `SDL.h`. -/
def SDL_INIT_AUDIO : Nat := 0x00000010
/-- Modelled from the spec: `SDL_INIT_VIDEO` of SDL2's `SDL.h`. -/
def SDL_INIT_VIDEO : Nat := 0x00000020
/-- Modelled from the spec: `SDL_INIT_JOYSTICK` of SDL2's `SDL.h`. -/
def SDL_INIT_JOYSTICK : Nat := 0x00000200
/-- Modelled from the spec: `SDL_INIT_HAPTIC` of SDL2's `SDL.h`. -/
def SDL_INIT_HAPTIC : Nat := 0x00001000
/-- Modelled from the spec: `SDL_INIT_GAMECONTROLLER` of SDL2's `SDL.h`. -/
def SDL_INIT_GAMECONTROLLER : Nat := 0x00002000
/-- Modelled from the spec: `SDL_INIT_EVENTS` of SDL2's `SDL.h`. -/
def SDL_INIT_EVENTS : Nat := 0x00004000
/-- Modelled from the spec: `SDL_INIT_SENSOR` of SDL2's `SDL.h`. -/
def SDL_INIT_SENSOR : Nat := 0x00008000
/-- Modelled from the spec: `SDL_INIT_EVERYTHING` of SDL2's `SDL.h`, the OR of the eight
subsystem constants. -/
def SDL_INIT_EVERYTHING : Nat :=
  SDL_INIT_TIMER ||| SDL_INIT_AUDIO ||| SDL_INIT_VIDEO ||| SDL_INIT_EVENTS |||
  SDL_INIT_JOYSTICK ||| SDL_INIT_HAPTIC ||| SDL_INIT_GAMECONTROLLER ||| SDL_INIT_SENSOR

/-! ## `class InitFlags` -/

/-- The nine one-bit fields of `class InitFlags` (wsdl.hpp 41-49). -/
structure InitFlags where
  mEverything : Bool
  mTimer : Bool
  mAudio : Bool
  mVideo : Bool
  mJoystick : Bool
  mHaptic : Bool
  mGamecontroller : Bool
  mEvents : Bool
  mSensor : Bool
  deriving DecidableEq

namespace InitFlags

/-- The expression `InitFlags()` (`InitFlags() = default;`, value-initialised): every bit is
clear. -/
def empty : InitFlags :=
  ⟨false, false, false, false, false, false, false, false, false⟩

/-- Source: `InitFlags InitFlags::everything() { mEverything = true; return *this; }`. -/
def everything (self : InitFlags) : InitFlags × InitFlags :=
  let self := { self with mEverything := true }
  (self, self)

/-- Source: `InitFlags InitFlags::timer() { mTimer = true; return *this; }`. -/
def timer (self : InitFlags) : InitFlags × InitFlags :=
  let self := { self with mTimer := true }
  (self, self)

/-- Source: `InitFlags InitFlags::audio() { mAudio = true; return *this; }`. -/
def audio (self : InitFlags) : InitFlags × InitFlags :=
  let self := { self with mAudio := true }
  (self, self)

/-- Source: `InitFlags InitFlags::video() { mVideo = true; return *this; }`. -/
def video (self : InitFlags) : InitFlags × InitFlags :=
  let self := { self with mVideo := true }
  (self, self)

/-- Source: `InitFlags InitFlags::joystick() { mJoystick = true; return *this; }`. -/
def joystick (self : InitFlags) : InitFlags × InitFlags :=
  let self := { self with mJoystick := true }
  (self, self)

/-- Source: `InitFlags InitFlags::haptic() { mHaptic = true; return *this; }`. -/
def haptic (self : InitFlags) : InitFlags × InitFlags :=
  let self := { self with mHaptic := true }
  (self, self)

/-- Source: `InitFlags InitFlags::gamecontroller() { mGamecontroller = true; return *this; }`. -/
def gamecontroller (self : InitFlags) : InitFlags × InitFlags :=
  let self := { self with mGamecontroller := true }
  (self, self)

/-- Source: `InitFlags InitFlags::events() { mEvents = true; return *this; }`. -/
def events (self : InitFlags) : InitFlags × InitFlags :=
  let self := { self with mEvents := true }
  (self, self)

/-- Source: `InitFlags InitFlags::sensor() { mSensor = true; return *this; }`. -/
def sensor (self : InitFlags) : InitFlags × InitFlags :=
  let self := { self with mSensor := true }
  (self, self)

/-- Source: `Uint32 InitFlags::get()` (wsdl.hpp 230-243).  There is no line for `mEvents`. -/
def get (self : InitFlags) : InitFlags × Nat :=
  if self.mEverything then
    (self, SDL_INIT_EVERYTHING)
  else
    let flags := 0
    let flags := flags ||| SDL_INIT_TIMER * self.mTimer.toNat
    let flags := flags ||| SDL_INIT_AUDIO * self.mAudio.toNat
    let flags := flags ||| SDL_INIT_VIDEO * self.mVideo.toNat
    let flags := flags ||| SDL_INIT_JOYSTICK * self.mJoystick.toNat
    let flags := flags ||| SDL_INIT_HAPTIC * self.mHaptic.toNat
    let flags := flags ||| SDL_INIT_GAMECONTROLLER * self.mGamecontroller.toNat
    let flags := flags ||| SDL_INIT_SENSOR * self.mSensor.toNat
    (self, flags)

end InitFlags

/-- The names of the nine option setters of `InitFlags`. -/
inductive InitOption where
  | everything | timer | audio | video | joystick | haptic | gamecontroller | events | sensor
  deriving DecidableEq

namespace InitOption

/-- The SDL constant that carries the name of the option. -/
def const : InitOption → Nat
  | everything => SDL_INIT_EVERYTHING
  | timer => SDL_INIT_TIMER
  | audio => SDL_INIT_AUDIO
  | video => SDL_INIT_VIDEO
  | joystick => SDL_INIT_JOYSTICK
  | haptic => SDL_INIT_HAPTIC
  | gamecontroller => SDL_INIT_GAMECONTROLLER
  | events => SDL_INIT_EVENTS
  | sensor => SDL_INIT_SENSOR

/-- The bit-field an option setter writes. -/
def field : InitOption → InitFlags → Bool
  | everything, f => f.mEverything
  | timer, f => f.mTimer
  | audio, f => f.mAudio
  | video, f => f.mVideo
  | joystick, f => f.mJoystick
  | haptic, f => f.mHaptic
  | gamecontroller, f => f.mGamecontroller
  | events, f => f.mEvents
  | sensor, f => f.mSensor

/-- The call `f.X()` for the setter named `X`. -/
def call : InitOption → InitFlags → InitFlags × InitFlags
  | everything => InitFlags.everything
  | timer => InitFlags.timer
  | audio => InitFlags.audio
  | video => InitFlags.video
  | joystick => InitFlags.joystick
  | haptic => InitFlags.haptic
  | gamecontroller => InitFlags.gamecontroller
  | events => InitFlags.events
  | sensor => InitFlags.sensor

/-- The eight subsystem options, in the order of the class declaration. -/
def subsystems : List InitOption :=
  [timer, audio, video, joystick, haptic, gamecontroller, events, sensor]

end InitOption

/-! ## SDL2 window constants -/

/-- Modelled from the spec: `SDL_WINDOW_FULLSCREEN` of SDL2's `SDL_video.h`. -/
def SDL_WINDOW_FULLSCREEN : Nat := 0x00000001
/-- Modelled from the spec: `SDL_WINDOW_OPENGL` of SDL2's `SDL_video.h`. -/
def SDL_WINDOW_OPENGL : Nat := 0x00000002
/-- Modelled from the spec: `SDL_WINDOW_SHOWN` of SDL2's `SDL_video.h`. -/
def SDL_WINDOW_SHOWN : Nat := 0x00000004
/-- Modelled from the spec: `SDL_WINDOW_HIDDEN` of SDL2's `SDL_video.h`. -/
def SDL_WINDOW_HIDDEN : Nat := 0x00000008
/-- Modelled from the spec: `SDL_WINDOW_BORDERLESS` of SDL2's `SDL_video.h`. -/
def SDL_WINDOW_BORDERLESS : Nat := 0x00000010
/-- Modelled from the spec: `SDL_WINDOW_RESIZABLE` of SDL2's `SDL_video.h`. -/
def SDL_WINDOW_RESIZABLE : Nat := 0x00000020
/-- Modelled from the spec: `SDL_WINDOW_MINIMIZED` of SDL2's `SDL_video.h`. -/
def SDL_WINDOW_MINIMIZED : Nat := 0x00000040
/-- Modelled from the spec: `SDL_WINDOW_MAXIMIZED` of SDL2's `SDL_video.h`. -/
def SDL_WINDOW_MAXIMIZED : Nat := 0x00000080
/-- Modelled from the spec: `SDL_WINDOW_MOUSE_GRABBED` of SDL2's `SDL_video.h`. -/
def SDL_WINDOW_MOUSE_GRABBED : Nat := 0x00000100
/-- Modelled from the spec: `SDL_WINDOW_INPUT_FOCUS` of SDL2's `SDL_video.h`. -/
def SDL_WINDOW_INPUT_FOCUS : Nat := 0x00000200
/-- Modelled from the spec: `SDL_WINDOW_MOUSE_FOCUS` of SDL2's `SDL_video.h`. -/
def SDL_WINDOW_MOUSE_FOCUS : Nat := 0x00000400
/-- Modelled from the spec: `SDL_WINDOW_FULLSCREEN_DESKTOP` of SDL2's `SDL_video.h`, defined there as
`( SDL_WINDOW_FULLSCREEN | 0x00001000 )`. -/
def SDL_WINDOW_FULLSCREEN_DESKTOP : Nat := SDL_WINDOW_FULLSCREEN ||| 0x00001000
/-- Modelled from the spec: `SDL_WINDOW_FOREIGN` of SDL2's `SDL_video.h`. -/
def SDL_WINDOW_FOREIGN : Nat := 0x00000800
/-- Modelled from the spec: `SDL_WINDOW_ALLOW_HIGHDPI` of SDL2's `SDL_video.h`. -/
def SDL_WINDOW_ALLOW_HIGHDPI : Nat := 0x00002000
/-- Modelled from the spec: `SDL_WINDOW_MOUSE_CAPTURE` of SDL2's `SDL_video.h`. -/
def SDL_WINDOW_MOUSE_CAPTURE : Nat := 0x00004000
/-- Modelled from the spec: `SDL_WINDOW_ALWAYS_ON_TOP` of SDL2's `SDL_video.h`. -/
def SDL_WINDOW_ALWAYS_ON_TOP : Nat := 0x00008000
/-- Modelled from the spec: `SDL_WINDOW_SKIP_TASKBAR` of SDL2's `SDL_video.h`. -/
def SDL_WINDOW_SKIP_TASKBAR : Nat := 0x00010000
/-- Modelled from the spec: `SDL_WINDOW_UTILITY` of SDL2's `SDL_video.h`. -/
def SDL_WINDOW_UTILITY : Nat := 0x00020000
/-- Modelled from the spec: `SDL_WINDOW_TOOLTIP` of SDL2's `SDL_video.h`. -/
def SDL_WINDOW_TOOLTIP : Nat := 0x00040000
/-- Modelled from the spec: `SDL_WINDOW_POPUP_MENU` of SDL2's `SDL_video.h`. -/
def SDL_WINDOW_POPUP_MENU : Nat := 0x00080000
/-- Modelled from the spec: `SDL_WINDOW_KEYBOARD_GRABBED` of SDL2's `SDL_video.h`. -/
def SDL_WINDOW_KEYBOARD_GRABBED : Nat := 0x00100000
/-- Modelled from the spec: `SDL_WINDOW_VULKAN` of SDL2's `SDL_video.h`. -/
def SDL_WINDOW_VULKAN : Nat := 0x10000000
/-- Modelled from the spec: `SDL_WINDOW_METAL` of SDL2's `SDL_video.h`. -/
def SDL_WINDOW_METAL : Nat := 0x20000000

/-! ## `class WindowFlags` -/

/-- The 23 one-bit fields of `class WindowFlags` (wsdl.hpp 91-113). -/
structure WindowFlags where
  mFullscreen : Bool
  mOpenGL : Bool
  mShown : Bool
  mHidden : Bool
  mBorderless : Bool
  mResizable : Bool
  mMinimized : Bool
  mMaximized : Bool
  mMouseGrabbed : Bool
  mInputFocus : Bool
  mMouseFocus : Bool
  mFullscreenDesktop : Bool
  mForeign : Bool
  mAllowHighDPI : Bool
  mMouseCapture : Bool
  mAlwaysOnTop : Bool
  mSkipTaskbar : Bool
  mIsUtility : Bool
  mIsTooltip : Bool
  mIsPopup : Bool
  mKeyboardGrabbed : Bool
  mVulkan : Bool
  mMetal : Bool
  deriving DecidableEq

namespace WindowFlags

/-- The expression `WindowFlags()` (`WindowFlags() = default;`, value-initialised): every bit is
clear. -/
def empty : WindowFlags :=
  ⟨false, false, false, false, false, false, false, false, false, false, false, false,
   false, false, false, false, false, false, false, false, false, false, false⟩

/-- Source: `WindowFlags WindowFlags::fullscreen() { mFullscreen = true; return *this; }`. -/
def fullscreen (self : WindowFlags) : WindowFlags × WindowFlags :=
  let self := { self with mFullscreen := true }
  (self, self)

/-- Source: `WindowFlags WindowFlags::openGL() { mOpenGL = true; return *this; }`. -/
def openGL (self : WindowFlags) : WindowFlags × WindowFlags :=
  let self := { self with mOpenGL := true }
  (self, self)

/-- Source: `WindowFlags WindowFlags::shown() { mShown = true; return *this; }`. -/
def shown (self : WindowFlags) : WindowFlags × WindowFlags :=
  let self := { self with mShown := true }
  (self, self)

/-- Source: `WindowFlags WindowFlags::hidden() { mHidden = true; return *this; }`. -/
def hidden (self : WindowFlags) : WindowFlags × WindowFlags :=
  let self := { self with mHidden := true }
  (self, self)

/-- Source: `WindowFlags WindowFlags::borderless() { mBorderless = true; return *this; }`. -/
def borderless (self : WindowFlags) : WindowFlags × WindowFlags :=
  let self := { self with mBorderless := true }
  (self, self)

/-- Source: `WindowFlags WindowFlags::resizable() { mResizable = true; return *this; }`. -/
def resizable (self : WindowFlags) : WindowFlags × WindowFlags :=
  let self := { self with mResizable := true }
  (self, self)

/-- Source: `WindowFlags WindowFlags::minimized() { mMinimized = true; return *this; }`. -/
def minimized (self : WindowFlags) : WindowFlags × WindowFlags :=
  let self := { self with mMinimized := true }
  (self, self)

/-- Source: `WindowFlags WindowFlags::maximized() { mMaximized = true; return *this; }`. -/
def maximized (self : WindowFlags) : WindowFlags × WindowFlags :=
  let self := { self with mMaximized := true }
  (self, self)

/-- Source: `WindowFlags WindowFlags::mouseGrabbed() { mMouseGrabbed = true; return *this; }`. -/
def mouseGrabbed (self : WindowFlags) : WindowFlags × WindowFlags :=
  let self := { self with mMouseGrabbed := true }
  (self, self)

/-- Source: `WindowFlags WindowFlags::inputFocus() { mInputFocus = true; return *this; }`. -/
def inputFocus (self : WindowFlags) : WindowFlags × WindowFlags :=
  let self := { self with mInputFocus := true }
  (self, self)

/-- Source: `WindowFlags WindowFlags::mouseFocus() { mMouseFocus = true; return *this; }`. -/
def mouseFocus (self : WindowFlags) : WindowFlags × WindowFlags :=
  let self := { self with mMouseFocus := true }
  (self, self)

/-- Source: `WindowFlags WindowFlags::fullscreenDesktop() { mFullscreenDesktop = true; return *this; }`. -/
def fullscreenDesktop (self : WindowFlags) : WindowFlags × WindowFlags :=
  let self := { self with mFullscreenDesktop := true }
  (self, self)

/-- Source: `WindowFlags WindowFlags::foreign() { mForeign = true; return *this; }`. -/
def foreign (self : WindowFlags) : WindowFlags × WindowFlags :=
  let self := { self with mForeign := true }
  (self, self)

/-- Source: `WindowFlags WindowFlags::allowHighDPI() { mAllowHighDPI = true; return *this; }`. -/
def allowHighDPI (self : WindowFlags) : WindowFlags × WindowFlags :=
  let self := { self with mAllowHighDPI := true }
  (self, self)

/-- Source: `WindowFlags WindowFlags::mouseCapture() { mMouseCapture = true; return *this; }`. -/
def mouseCapture (self : WindowFlags) : WindowFlags × WindowFlags :=
  let self := { self with mMouseCapture := true }
  (self, self)

/-- Source: `WindowFlags WindowFlags::alwaysOnTop() { mAlwaysOnTop = true; return *this; }`. -/
def alwaysOnTop (self : WindowFlags) : WindowFlags × WindowFlags :=
  let self := { self with mAlwaysOnTop := true }
  (self, self)

/-- Source: `WindowFlags WindowFlags::skipTaskbar() { mSkipTaskbar = true; return *this; }`. -/
def skipTaskbar (self : WindowFlags) : WindowFlags × WindowFlags :=
  let self := { self with mSkipTaskbar := true }
  (self, self)

/-- Source: `WindowFlags WindowFlags::isUtility() { mIsUtility = true; return *this; }`. -/
def isUtility (self : WindowFlags) : WindowFlags × WindowFlags :=
  let self := { self with mIsUtility := true }
  (self, self)

/-- Source: `WindowFlags WindowFlags::isTooltip() { mIsTooltip = true; return *this; }`. -/
def isTooltip (self : WindowFlags) : WindowFlags × WindowFlags :=
  let self := { self with mIsTooltip := true }
  (self, self)

/-- Source: `WindowFlags WindowFlags::isPopup() { mIsPopup = true; return *this; }`. -/
def isPopup (self : WindowFlags) : WindowFlags × WindowFlags :=
  let self := { self with mIsPopup := true }
  (self, self)

/-- Source: `WindowFlags WindowFlags::keyboardGrabbed() { mKeyboardGrabbed = true; return *this; }`. -/
def keyboardGrabbed (self : WindowFlags) : WindowFlags × WindowFlags :=
  let self := { self with mKeyboardGrabbed := true }
  (self, self)

/-- Source: `WindowFlags WindowFlags::vulkan() { mVulkan = true; return *this; }`. -/
def vulkan (self : WindowFlags) : WindowFlags × WindowFlags :=
  let self := { self with mVulkan := true }
  (self, self)

/-- Source: `WindowFlags WindowFlags::metal() { mMetal = true; return *this; }`. -/
def metal (self : WindowFlags) : WindowFlags × WindowFlags :=
  let self := { self with mMetal := true }
  (self, self)

/-- Source: `Uint32 WindowFlags::get()` (wsdl.hpp 302-328). -/
def get (self : WindowFlags) : WindowFlags × Nat :=
  let flags := 0
  let flags := flags ||| SDL_WINDOW_FULLSCREEN * self.mFullscreen.toNat
  let flags := flags ||| SDL_WINDOW_OPENGL * self.mOpenGL.toNat
  let flags := flags ||| SDL_WINDOW_SHOWN * self.mShown.toNat
  let flags := flags ||| SDL_WINDOW_HIDDEN * self.mHidden.toNat
  let flags := flags ||| SDL_WINDOW_BORDERLESS * self.mBorderless.toNat
  let flags := flags ||| SDL_WINDOW_RESIZABLE * self.mResizable.toNat
  let flags := flags ||| SDL_WINDOW_MINIMIZED * self.mMinimized.toNat
  let flags := flags ||| SDL_WINDOW_MAXIMIZED * self.mMaximized.toNat
  let flags := flags ||| SDL_WINDOW_MOUSE_GRABBED * self.mMouseGrabbed.toNat
  let flags := flags ||| SDL_WINDOW_INPUT_FOCUS * self.mInputFocus.toNat
  let flags := flags ||| SDL_WINDOW_MOUSE_FOCUS * self.mMouseFocus.toNat
  let flags := flags ||| SDL_WINDOW_FULLSCREEN_DESKTOP * self.mFullscreenDesktop.toNat
  let flags := flags ||| SDL_WINDOW_FOREIGN * self.mForeign.toNat
  let flags := flags ||| SDL_WINDOW_ALLOW_HIGHDPI * self.mAllowHighDPI.toNat
  let flags := flags ||| SDL_WINDOW_MOUSE_CAPTURE * self.mMouseCapture.toNat
  let flags := flags ||| SDL_WINDOW_ALWAYS_ON_TOP * self.mAlwaysOnTop.toNat
  let flags := flags ||| SDL_WINDOW_SKIP_TASKBAR * self.mSkipTaskbar.toNat
  let flags := flags ||| SDL_WINDOW_UTILITY * self.mIsUtility.toNat
  let flags := flags ||| SDL_WINDOW_TOOLTIP * self.mIsTooltip.toNat
  let flags := flags ||| SDL_WINDOW_POPUP_MENU * self.mIsPopup.toNat
  let flags := flags ||| SDL_WINDOW_KEYBOARD_GRABBED * self.mKeyboardGrabbed.toNat
  let flags := flags ||| SDL_WINDOW_VULKAN * self.mVulkan.toNat
  let flags := flags ||| SDL_WINDOW_METAL * self.mMetal.toNat
  (self, flags)

end WindowFlags

/-- The names of the 23 option setters of `WindowFlags`. -/
inductive WindowOption where
  | fullscreen | openGL | shown | hidden | borderless | resizable | minimized | maximized
  | mouseGrabbed | inputFocus | mouseFocus | fullscreenDesktop | foreign | allowHighDPI
  | mouseCapture | alwaysOnTop | skipTaskbar | isUtility | isTooltip | isPopup
  | keyboardGrabbed | vulkan | metal
  deriving DecidableEq

namespace WindowOption

/-- The SDL constant that the line of `get()` for this option multiplies by its field. -/
def const : WindowOption → Nat
  | fullscreen => SDL_WINDOW_FULLSCREEN
  | openGL => SDL_WINDOW_OPENGL
  | shown => SDL_WINDOW_SHOWN
  | hidden => SDL_WINDOW_HIDDEN
  | borderless => SDL_WINDOW_BORDERLESS
  | resizable => SDL_WINDOW_RESIZABLE
  | minimized => SDL_WINDOW_MINIMIZED
  | maximized => SDL_WINDOW_MAXIMIZED
  | mouseGrabbed => SDL_WINDOW_MOUSE_GRABBED
  | inputFocus => SDL_WINDOW_INPUT_FOCUS
  | mouseFocus => SDL_WINDOW_MOUSE_FOCUS
  | fullscreenDesktop => SDL_WINDOW_FULLSCREEN_DESKTOP
  | foreign => SDL_WINDOW_FOREIGN
  | allowHighDPI => SDL_WINDOW_ALLOW_HIGHDPI
  | mouseCapture => SDL_WINDOW_MOUSE_CAPTURE
  | alwaysOnTop => SDL_WINDOW_ALWAYS_ON_TOP
  | skipTaskbar => SDL_WINDOW_SKIP_TASKBAR
  | isUtility => SDL_WINDOW_UTILITY
  | isTooltip => SDL_WINDOW_TOOLTIP
  | isPopup => SDL_WINDOW_POPUP_MENU
  | keyboardGrabbed => SDL_WINDOW_KEYBOARD_GRABBED
  | vulkan => SDL_WINDOW_VULKAN
  | metal => SDL_WINDOW_METAL

/-- The bit-field an option setter writes. -/
def field : WindowOption → WindowFlags → Bool
  | fullscreen, f => f.mFullscreen
  | openGL, f => f.mOpenGL
  | shown, f => f.mShown
  | hidden, f => f.mHidden
  | borderless, f => f.mBorderless
  | resizable, f => f.mResizable
  | minimized, f => f.mMinimized
  | maximized, f => f.mMaximized
  | mouseGrabbed, f => f.mMouseGrabbed
  | inputFocus, f => f.mInputFocus
  | mouseFocus, f => f.mMouseFocus
  | fullscreenDesktop, f => f.mFullscreenDesktop
  | foreign, f => f.mForeign
  | allowHighDPI, f => f.mAllowHighDPI
  | mouseCapture, f => f.mMouseCapture
  | alwaysOnTop, f => f.mAlwaysOnTop
  | skipTaskbar, f => f.mSkipTaskbar
  | isUtility, f => f.mIsUtility
  | isTooltip, f => f.mIsTooltip
  | isPopup, f => f.mIsPopup
  | keyboardGrabbed, f => f.mKeyboardGrabbed
  | vulkan, f => f.mVulkan
  | metal, f => f.mMetal

/-- The call `f.X()` for the setter named `X`. -/
def call : WindowOption → WindowFlags → WindowFlags × WindowFlags
  | fullscreen => WindowFlags.fullscreen
  | openGL => WindowFlags.openGL
  | shown => WindowFlags.shown
  | hidden => WindowFlags.hidden
  | borderless => WindowFlags.borderless
  | resizable => WindowFlags.resizable
  | minimized => WindowFlags.minimized
  | maximized => WindowFlags.maximized
  | mouseGrabbed => WindowFlags.mouseGrabbed
  | inputFocus => WindowFlags.inputFocus
  | mouseFocus => WindowFlags.mouseFocus
  | fullscreenDesktop => WindowFlags.fullscreenDesktop
  | foreign => WindowFlags.foreign
  | allowHighDPI => WindowFlags.allowHighDPI
  | mouseCapture => WindowFlags.mouseCapture
  | alwaysOnTop => WindowFlags.alwaysOnTop
  | skipTaskbar => WindowFlags.skipTaskbar
  | isUtility => WindowFlags.isUtility
  | isTooltip => WindowFlags.isTooltip
  | isPopup => WindowFlags.isPopup
  | keyboardGrabbed => WindowFlags.keyboardGrabbed
  | vulkan => WindowFlags.vulkan
  | metal => WindowFlags.metal

/-- All 23 options, in the order of the class declaration. -/
def all : List WindowOption :=
  [fullscreen, openGL, shown, hidden, borderless, resizable, minimized, maximized,
   mouseGrabbed, inputFocus, mouseFocus, fullscreenDesktop, foreign, allowHighDPI,
   mouseCapture, alwaysOnTop, skipTaskbar, isUtility, isTooltip, isPopup, keyboardGrabbed,
   vulkan, metal]

end WindowOption

/-! ## SDL2 renderer constants -/

/-- Modelled from the spec: `SDL_RENDERER_SOFTWARE` of SDL2's `SDL_render.h`. -/
def SDL_RENDERER_SOFTWARE : Nat := 0x00000001
/-- Modelled from the spec: `SDL_RENDERER_ACCELERATED` of SDL2's `SDL_render.h`. -/
def SDL_RENDERER_ACCELERATED : Nat := 0x00000002
/-- Modelled from the spec: `SDL_RENDERER_PRESENTVSYNC` of SDL2's `SDL_render.h`. -/
def SDL_RENDERER_PRESENTVSYNC : Nat := 0x00000004
/-- Modelled from the spec: `SDL_RENDERER_TARGETTEXTURE` of SDL2's `SDL_render.h`. -/
def SDL_RENDERER_TARGETTEXTURE : Nat := 0x00000008

/-! ## `class RendererFlags` -/

/-- The 4 one-bit fields of `class RendererFlags` (wsdl.hpp 166-169). -/
structure RendererFlags where
  mSoftware : Bool
  mAccelerated : Bool
  mPresentVSync : Bool
  mTargetTexture : Bool
  deriving DecidableEq

namespace RendererFlags

/-- The expression `RendererFlags()` (`RendererFlags() = default;`, value-initialised): every bit is
clear. -/
def empty : RendererFlags :=
  ⟨false, false, false, false⟩

/-- Source: `RendererFlags RendererFlags::software() { mSoftware = true; return *this; }`. -/
def software (self : RendererFlags) : RendererFlags × RendererFlags :=
  let self := { self with mSoftware := true }
  (self, self)

/-- Source: `RendererFlags RendererFlags::accelerated() { mAccelerated = true; return *this; }`. -/
def accelerated (self : RendererFlags) : RendererFlags × RendererFlags :=
  let self := { self with mAccelerated := true }
  (self, self)

/-- Source: `RendererFlags RendererFlags::presentVSync() { mPresentVSync = true; return *this; }`. -/
def presentVSync (self : RendererFlags) : RendererFlags × RendererFlags :=
  let self := { self with mPresentVSync := true }
  (self, self)

/-- Source: `RendererFlags RendererFlags::targetTexture() { mTargetTexture = true; return *this; }`. -/
def targetTexture (self : RendererFlags) : RendererFlags × RendererFlags :=
  let self := { self with mTargetTexture := true }
  (self, self)

/-- Source: `Uint32 RendererFlags::get()` (wsdl.hpp 383-390). -/
def get (self : RendererFlags) : RendererFlags × Nat :=
  let flags := 0
  let flags := flags ||| SDL_RENDERER_SOFTWARE * self.mSoftware.toNat
  let flags := flags ||| SDL_RENDERER_ACCELERATED * self.mAccelerated.toNat
  let flags := flags ||| SDL_RENDERER_PRESENTVSYNC * self.mPresentVSync.toNat
  let flags := flags ||| SDL_RENDERER_TARGETTEXTURE * self.mTargetTexture.toNat
  (self, flags)

end RendererFlags

/-- The names of the 4 option setters of `RendererFlags`. -/
inductive RendererOption where
  | software | accelerated | presentVSync | targetTexture
  deriving DecidableEq

namespace RendererOption

/-- The SDL constant that the line of `get()` for this option multiplies by its field. -/
def const : RendererOption → Nat
  | software => SDL_RENDERER_SOFTWARE
  | accelerated => SDL_RENDERER_ACCELERATED
  | presentVSync => SDL_RENDERER_PRESENTVSYNC
  | targetTexture => SDL_RENDERER_TARGETTEXTURE

/-- The bit-field an option setter writes. -/
def field : RendererOption → RendererFlags → Bool
  | software, f => f.mSoftware
  | accelerated, f => f.mAccelerated
  | presentVSync, f => f.mPresentVSync
  | targetTexture, f => f.mTargetTexture

/-- The call `f.X()` for the setter named `X`. -/
def call : RendererOption → RendererFlags → RendererFlags × RendererFlags
  | software => RendererFlags.software
  | accelerated => RendererFlags.accelerated
  | presentVSync => RendererFlags.presentVSync
  | targetTexture => RendererFlags.targetTexture

/-- All 4 options, in the order of the class declaration. -/
def all : List RendererOption :=
  [software, accelerated, presentVSync, targetTexture]

end RendererOption

/-- A fluent chain `f.X1().X2()...Xn()`: each setter is called on the value returned by the
previous one; the result is the value returned by the last call. -/
def InitFlags.chain (f : InitFlags) : List InitOption → InitFlags
  | [] => f
  | x :: xs => InitFlags.chain (x.call f).2 xs

/-- Spec-side reading of "the bitwise OR of the constants of exactly the recorded options":
fold `|||` over the constants of those options of `opts` whose field is recorded. -/
def orOfRecorded {ο : Type} (const : ο → Nat) (recorded : ο → Bool) (opts : List ο) : Nat :=
  ((opts.filter recorded).map const).foldr (fun c acc => c ||| acc) 0

/-! ## The capability provider (SDL2) -/

/-- Modelled from the spec: `SDL_WINDOWPOS_UNDEFINED` of SDL2's `SDL_video.h`
(`SDL_WINDOWPOS_UNDEFINED_MASK | 0`). -/
def SDL_WINDOWPOS_UNDEFINED : Int := 0x1FFF0000

/-- The null pointer.  `SDL_Window *` and `SDL_Renderer *` values are addresses. -/
def NULL : Nat := 0

/-- An `SDL_Event`: the wrapper never looks inside, it hands the record to the handler. -/
structure Event where
  type : Nat
  data : Nat
  deriving DecidableEq

/-- One call into SDL2 made by the wrapper, with the arguments passed. -/
inductive Call where
  | SDL_Init (flags : Nat)
  | SDL_Quit
  | SDL_CreateWindow (title : String) (x y w h : Int) (flags : Nat)
  | SDL_DestroyWindow (window : Nat)
  | SDL_CreateRenderer (window : Nat) (index : Int) (flags : Nat)
  | SDL_DestroyRenderer (renderer : Nat)
  | SDL_SetRenderDrawColor (renderer : Nat) (r g b a : Nat)
  deriving DecidableEq

/-- What the wrapper can observe of SDL2: the calls made so far (oldest first) and the events
waiting in the queue (front first). -/
structure World where
  calls : List Call
  queue : List Event

/-- The answers of SDL2.  Each may depend on everything that happened before the call. -/
structure Provider where
  initResult : World → Nat → Int
  createWindowResult : World → String → Int → Int → Int → Int → Nat → Nat
  createRendererResult : World → Nat → Int → Nat → Nat

/-- Appends a call to the log. -/
def World.record (w : World) (c : Call) : World :=
  { w with calls := w.calls ++ [c] }

/-- Number of `SDL_Init` calls in the log. -/
def World.initCalls (w : World) : Nat :=
  w.calls.countP (fun c => match c with | Call.SDL_Init _ => true | _ => false)

/-- Number of `SDL_Quit` calls in the log. -/
def World.quitCalls (w : World) : Nat :=
  w.calls.count Call.SDL_Quit

/-- The call `SDL_Init(flags)`: returns the provider's status code. -/
def SDL_Init (P : Provider) (flags : Nat) (w : World) : Int × World :=
  (P.initResult w flags, w.record (Call.SDL_Init flags))

/-- The call `SDL_Quit()`. -/
def SDL_Quit (w : World) : World :=
  w.record Call.SDL_Quit

/-- The call `SDL_CreateWindow(title, x, y, w, h, flags)`: returns the handle, `NULL` on
failure. -/
def SDL_CreateWindow (P : Provider) (title : String) (x y w h : Int) (flags : Nat)
    (world : World) : Nat × World :=
  (P.createWindowResult world title x y w h flags,
   world.record (Call.SDL_CreateWindow title x y w h flags))

/-- The call `SDL_DestroyWindow(window)`. -/
def SDL_DestroyWindow (window : Nat) (w : World) : World :=
  w.record (Call.SDL_DestroyWindow window)

/-- The call `SDL_CreateRenderer(window, index, flags)`: returns the handle, `NULL` on
failure. -/
def SDL_CreateRenderer (P : Provider) (window : Nat) (index : Int) (flags : Nat)
    (w : World) : Nat × World :=
  (P.createRendererResult w window index flags,
   w.record (Call.SDL_CreateRenderer window index flags))

/-- The call `SDL_DestroyRenderer(renderer)`. -/
def SDL_DestroyRenderer (renderer : Nat) (w : World) : World :=
  w.record (Call.SDL_DestroyRenderer renderer)

/-- The call `SDL_SetRenderDrawColor(renderer, r, g, b, a)`; the wrapper drops its result. -/
def SDL_SetRenderDrawColor (renderer : Nat) (r g b a : Nat) (w : World) : World :=
  w.record (Call.SDL_SetRenderDrawColor renderer r g b a)

/-- The call `SDL_PollEvent(&e)`: `some e` stands for the return value 1 with the front event
removed from the queue and stored in `e`, `none` for the return value 0. -/
def SDL_PollEvent (w : World) : Option Event × World :=
  match w.queue with
  | [] => (none, w)
  | e :: rest => (some e, { w with queue := rest })

/-! ## `class SDL` -/

/-- The field `mOK` of `class SDL`.  The field `mEvent` is never read or written by the
implementation and is left out. -/
structure SDL where
  mOK : Bool
  deriving DecidableEq

namespace SDL

/-- Source: `SDL::SDL(InitFlags flags) { mOK = SDL_Init(flags.get()) == 0; }`. -/
def ctor (P : Provider) (flags : InitFlags) (w : World) : SDL × World :=
  let (rc, w) := SDL_Init P flags.get.2 w
  (⟨rc == 0⟩, w)

/-- Source: `SDL::~SDL() { SDL_Quit(); }` (wsdl.hpp 249-254). -/
def dtor (_self : SDL) (w : World) : World :=
  SDL_Quit w

/-- Source: `void SDL::pollEvents(std::function<void(Event)> f)`:
`Event e; while(SDL_PollEvent(&e)) f(e);`.  The handler acts on the state `σ` its closure
captures (it has no access to the queue).  One unit of `fuel` is one evaluation of the loop
condition; `none` means the fuel ran out before the loop ended. -/
def pollEvents {σ : Type} (_self : SDL) (f : Event → σ → σ) :
    Nat → σ → World → Option (σ × World)
  | 0, _, _ => none
  | fuel + 1, s, w =>
    match SDL_PollEvent w with
    | (some e, w) => pollEvents _self f fuel (f e s) w
    | (none, w) => some (s, w)

end SDL

/-! ## `class Window` -/

/-- The fields `mIntern` and `mOK` of `class Window`.  The reference `mSDL` is only passed on
and never dereferenced; it is left out. -/
structure Window where
  mIntern : Nat
  mOK : Bool
  deriving DecidableEq

namespace Window

/-- Source: `Window::Window(SDL&, WindowFlags flags, const char *title, int x, int y, int w,
int h)` (wsdl.hpp 330-335). -/
def ctor_flags_xywh (P : Provider) (flags : WindowFlags) (title : String) (x y w h : Int)
    (world : World) : Window × World :=
  let (mIntern, world) := SDL_CreateWindow P title x y w h flags.get.2 world
  (⟨mIntern, mIntern != NULL⟩, world)

/-- Source: `Window::Window(SDL&, WindowFlags flags, const char *title, int w, int h)`
(wsdl.hpp 337-342). -/
def ctor_flags_wh (P : Provider) (flags : WindowFlags) (title : String) (w h : Int)
    (world : World) : Window × World :=
  let (mIntern, world) :=
    SDL_CreateWindow P title SDL_WINDOWPOS_UNDEFINED SDL_WINDOWPOS_UNDEFINED w h flags.get.2 world
  (⟨mIntern, mIntern != NULL⟩, world)

/-- Source: `Window::Window(SDL&, const char *title, int x, int y, int w, int h)`
(wsdl.hpp 344-349). -/
def ctor_xywh (P : Provider) (title : String) (x y w h : Int) (world : World) :
    Window × World :=
  let (mIntern, world) := SDL_CreateWindow P title x y w h 0 world
  (⟨mIntern, mIntern != NULL⟩, world)

/-- Source: `Window::Window(SDL&, const char *title, int w, int h)` (wsdl.hpp 351-356). -/
def ctor_wh (P : Provider) (title : String) (w h : Int) (world : World) : Window × World :=
  let (mIntern, world) :=
    SDL_CreateWindow P title SDL_WINDOWPOS_UNDEFINED SDL_WINDOWPOS_UNDEFINED w h 0 world
  (⟨mIntern, mIntern != NULL⟩, world)

/-- Source: `Window::~Window() { if(mOK) SDL_DestroyWindow(mIntern); }` (wsdl.hpp 358-364). -/
def dtor (self : Window) (w : World) : World :=
  if self.mOK then SDL_DestroyWindow self.mIntern w else w

/-- Source: `bool Window::ok() { return mOK; }`. -/
def ok (self : Window) : Bool := self.mOK

/-- Source: `SDL_Window *Window::intern() { return mIntern; }`. -/
def intern (self : Window) : Nat := self.mIntern

end Window

/-! ## `class Renderer` -/

/-- The fields `mIntern` and `mOK` of `class Renderer`.  The references `mSDL` and `mWindow`
are left out; `mWindow` is read once, in the constructors, where the window is an argument. -/
structure Renderer where
  mIntern : Nat
  mOK : Bool
  deriving DecidableEq

namespace Renderer

/-- Source: `Renderer::Renderer(SDL&, Window& window, RendererFlags flags)`
(wsdl.hpp 392-397). -/
def ctor_flags (P : Provider) (window : Window) (flags : RendererFlags) (w : World) :
    Renderer × World :=
  let (mIntern, w) := SDL_CreateRenderer P window.intern (-1) flags.get.2 w
  (⟨mIntern, mIntern != NULL⟩, w)

/-- Source: `Renderer::Renderer(SDL&, Window& window)` (wsdl.hpp 399-404). -/
def ctor_noflags (P : Provider) (window : Window) (w : World) : Renderer × World :=
  let (mIntern, w) := SDL_CreateRenderer P window.intern (-1) 0 w
  (⟨mIntern, mIntern != NULL⟩, w)

/-- Source: `Renderer::~Renderer() { if(mOK) SDL_DestroyRenderer(mIntern); }`
(wsdl.hpp 406-412). -/
def dtor (self : Renderer) (w : World) : World :=
  if self.mOK then SDL_DestroyRenderer self.mIntern w else w

/-- Source: `bool Renderer::ok() { return mOK; }`. -/
def ok (self : Renderer) : Bool := self.mOK

/-- Source: `SDL_Renderer *Renderer::intern() { return mIntern; }`. -/
def intern (self : Renderer) : Nat := self.mIntern

end Renderer

/-- Source: `Window SDL::createWindow(WindowFlags flags, const char *title, int x, int y, int w,
int h)`. -/
def SDL.createWindow_flags_xywh (_self : SDL) (P : Provider) (flags : WindowFlags)
    (title : String) (x y w h : Int) (world : World) : Window × World :=
  Window.ctor_flags_xywh P flags title x y w h world

/-- Source: `Window SDL::createWindow(WindowFlags flags, const char *title, int w, int h)`. -/
def SDL.createWindow_flags_wh (_self : SDL) (P : Provider) (flags : WindowFlags)
    (title : String) (w h : Int) (world : World) : Window × World :=
  Window.ctor_flags_wh P flags title w h world

/-- Source: `Window SDL::createWindow(const char *title, int x, int y, int w, int h)`. -/
def SDL.createWindow_xywh (_self : SDL) (P : Provider) (title : String) (x y w h : Int)
    (world : World) : Window × World :=
  Window.ctor_xywh P title x y w h world

/-- Source: `Window SDL::createWindow(const char *title, int w, int h)`. -/
def SDL.createWindow_wh (_self : SDL) (P : Provider) (title : String) (w h : Int)
    (world : World) : Window × World :=
  Window.ctor_wh P title w h world

/-- Source: `Renderer Window::createRenderer(RendererFlags flags)`. -/
def Window.createRenderer_flags (self : Window) (P : Provider) (flags : RendererFlags)
    (w : World) : Renderer × World :=
  Renderer.ctor_flags P self flags w

/-- Source: `Renderer Window::createRenderer()`. -/
def Window.createRenderer_noflags (self : Window) (P : Provider) (w : World) :
    Renderer × World :=
  Renderer.ctor_noflags P self w

/-! ## `float` channels and `wsdl_float2uint8`

`float` is IEEE-754 binary32 with round-to-nearest-even, and expressions of type `float` are
evaluated in that format.  Only finite values are represented; the exponent range is not
enforced, which does not change `(int)(f*255.0f)`: a product too large for the format is also
too large for `int`, and a product small enough to be subnormal truncates to 0 either way. -/

/-- A finite `float` value, `mant * 2 ^ exp`. -/
structure Float32 where
  mant : Int
  exp : Int
  deriving DecidableEq

namespace Float32

/-- The value of a `float` literal or constant that is a small integer (`0.0f`, `1.0f`, `2.0f`,
`255.0f`): exact for every integer below `2 ^ 24` in magnitude. -/
def ofInt (n : Int) : Float32 := ⟨n, 0⟩

/-- How many low bits of `n` do not fit in a 24-bit significand. -/
def excessBits : Nat → Nat → Nat
  | 0, _ => 0
  | fuel + 1, n => if n < 2 ^ 24 then 0 else 1 + excessBits fuel (n / 2)

/-- Rounds the exact value `m * 2 ^ e` to a 24-bit significand, to nearest, ties to even. -/
def round (m e : Int) : Float32 :=
  let n := m.natAbs
  let k := excessBits n n
  if k = 0 then ⟨m, e⟩
  else
    let q := n / 2 ^ k
    let r := n % 2 ^ k
    let half := 2 ^ (k - 1)
    let q := if half < r ∨ (r = half ∧ q % 2 = 1) then q + 1 else q
    ⟨Int.sign m * q, e + k⟩

/-- The product `a * b` of two `float`s: the exact product, rounded. -/
def mul (a b : Float32) : Float32 :=
  round (a.mant * b.mant) (a.exp + b.exp)

/-- The conversion `(int)x`: truncation toward zero; `none` (undefined behaviour in C++) when
the truncated value is not representable in a 32-bit `int`. -/
def toInt (x : Float32) : Option Int :=
  let t := if 0 ≤ x.exp then x.mant * 2 ^ x.exp.toNat else Int.tdiv x.mant (2 ^ (-x.exp).toNat)
  if -2 ^ 31 ≤ t ∧ t < 2 ^ 31 then some t else none

end Float32

/-- Source: `#define wsdl_float2uint8(f) (Uint8)((int)(f*255.0f)&0xFF)` (wsdl.hpp 429).
`&` on a negative `int` acts on its two's-complement bits, as `Int.land` does; the cast to
`Uint8` reduces modulo 256. -/
def wsdl_float2uint8 (f : Float32) : Option Nat :=
  match (Float32.mul f (Float32.ofInt 255)).toInt with
  | none => none
  | some n => some ((Int.land n 0xFF) % 256).toNat

/-- The four `Uint8` channels of an `SDL_Color`. -/
structure SDL_Color where
  r : Nat
  g : Nat
  b : Nat
  a : Nat

namespace Renderer

/-- Source: `void Renderer::color(Uint8 r, Uint8 g, Uint8 b, Uint8 a)
{ SDL_SetRenderDrawColor(mIntern, r, g, b, a); }`. -/
def color (self : Renderer) (r g b a : Nat) (w : World) : World :=
  SDL_SetRenderDrawColor self.mIntern r g b a w

/-- Source: `void Renderer::color(SDL_Color c) { color(c.r, c.g, c.b, c.a); }`. -/
def color_SDL_Color (self : Renderer) (c : SDL_Color) (w : World) : World :=
  self.color c.r c.g c.b c.a w

/-- Source: `void Renderer::color(Uint8 r, Uint8 g, Uint8 b) { color(r, g, b, 255); }`. -/
def color_rgb (self : Renderer) (r g b : Nat) (w : World) : World :=
  self.color r g b 255 w

/-- Source: `void Renderer::color(float r, float g, float b)` (wsdl.hpp 431-435): the
three-channel byte overload applied to the converted channels. -/
def color_float_rgb (self : Renderer) (r g b : Float32) (w : World) : Option World :=
  match wsdl_float2uint8 r, wsdl_float2uint8 g, wsdl_float2uint8 b with
  | some r, some g, some b => some (self.color_rgb r g b w)
  | _, _, _ => none

/-- Source: `void Renderer::color(float r, float g, float b, float a)` (wsdl.hpp 437-442). -/
def color_float_rgba (self : Renderer) (r g b a : Float32) (w : World) : Option World :=
  match wsdl_float2uint8 r, wsdl_float2uint8 g, wsdl_float2uint8 b, wsdl_float2uint8 a with
  | some r, some g, some b, some a => some (self.color r g b a w)
  | _, _, _, _ => none

end Renderer

/-! ## Fluent chains of the other two builders -/

/-- A fluent chain `f.X1().X2()...Xn()` on a `WindowFlags`. -/
def WindowFlags.chain (f : WindowFlags) : List WindowOption → WindowFlags
  | [] => f
  | x :: xs => WindowFlags.chain (x.call f).2 xs

/-- A fluent chain `f.X1().X2()...Xn()` on a `RendererFlags`. -/
def RendererFlags.chain (f : RendererFlags) : List RendererOption → RendererFlags
  | [] => f
  | x :: xs => RendererFlags.chain (x.call f).2 xs

/-! ## Auxiliary lemmas -/

theorem orOfRecorded_nil {ο : Type} (const : ο → Nat) (recorded : ο → Bool) :
    orOfRecorded const recorded [] = 0 := rfl

theorem orOfRecorded_cons {ο : Type} (const : ο → Nat) (recorded : ο → Bool) (x : ο)
    (xs : List ο) :
    orOfRecorded const recorded (x :: xs) =
      const x * (recorded x).toNat ||| orOfRecorded const recorded xs := by
  cases h : recorded x <;> simp [orOfRecorded, List.filter_cons, h]

theorem InitFlags.call_keeps_everything (x : InitOption) (f : InitFlags)
    (h : f.mEverything = true) : (x.call f).2.mEverything = true := by
  cases x <;> first | rfl | exact h

theorem InitFlags.chain_keeps_everything (xs : List InitOption) (f : InitFlags)
    (h : f.mEverything = true) : (f.chain xs).mEverything = true := by
  induction xs generalizing f with
  | nil => exact h
  | cons x xs ih => exact ih _ (InitFlags.call_keeps_everything x f h)

/-- What `InitFlags::get()` computes when `mEverything` is clear: the OR over the seven
subsystem options that have a line in its body (`events` has none). -/
theorem InitFlags.get_of_not_everything (f : InitFlags) (h : f.mEverything = false) :
    f.get.2 = orOfRecorded InitOption.const (fun o => o.field f)
      [InitOption.timer, InitOption.audio, InitOption.video, InitOption.joystick,
       InitOption.haptic, InitOption.gamecontroller, InitOption.sensor] := by
  simp only [InitFlags.get, h, orOfRecorded_cons, orOfRecorded_nil, InitOption.const,
    InitOption.field, Nat.lor_assoc, Nat.zero_or, Nat.or_zero]
  simp

theorem exists_pow_of_bounded (n : Nat) (h : ∃ k, k < 32 ∧ n = 2 ^ k) : ∃ k, n = 2 ^ k :=
  h.elim fun k hk => ⟨k, hk.2⟩

theorem Int.land_255_of_nonneg (n : Int) (h : 0 ≤ n) :
    ((Int.land n 0xFF) % 256).toNat = n.toNat % 256 := by
  obtain ⟨m, rfl⟩ := Int.eq_ofNat_of_zero_le h
  have h1 : Int.land (m : Int) 0xFF = ((m &&& 255 : Nat) : Int) := rfl
  have h2 : m &&& 255 = m % 256 := Nat.and_pow_two_sub_one_eq_mod m 8
  rw [h1, h2]
  simp
  omega

/-- What the constructor and destructor of `sdl::SDL` do, for every provider, flag set and
world: the constructor makes one `SDL_Init` call with `flags.get()` and records whether it
returned 0; the destructor makes one `SDL_Quit` call whatever `mOK` is. -/
theorem SDL.ctor_dtor_calls (P : Provider) (flags : InitFlags) (w : World) :
    (SDL.ctor P flags w).2.calls = w.calls ++ [Call.SDL_Init flags.get.2] ∧
    (SDL.ctor P flags w).1.mOK = (P.initResult w flags.get.2 == 0) ∧
    ((SDL.ctor P flags w).1.dtor (SDL.ctor P flags w).2).calls =
      w.calls ++ [Call.SDL_Init flags.get.2, Call.SDL_Quit] := by
  simp [SDL.ctor, SDL.dtor, SDL_Init, SDL_Quit, World.record]

theorem InitOption.init_call_field_self (X : InitOption) (f : InitFlags) :
    X.field (X.call f).1 = true := by
  cases X <;> rfl

set_option maxHeartbeats 1000000 in
theorem InitOption.init_call_field_other (X Z : InitOption) (f : InitFlags) (hZ : Z ≠ X) :
    Z.field (X.call f).1 = Z.field f := by
  cases X <;> cases Z <;> first | exact absurd rfl hZ | rfl

theorem InitOption.init_call_snd (X : InitOption) (f : InitFlags) : (X.call f).2 = (X.call f).1 := by
  cases X <;> rfl

theorem WindowOption.window_call_field_self (X : WindowOption) (f : WindowFlags) :
    X.field (X.call f).1 = true := by
  cases X <;> rfl

set_option maxHeartbeats 1000000 in
theorem WindowOption.window_call_field_other (X Z : WindowOption) (f : WindowFlags) (hZ : Z ≠ X) :
    Z.field (X.call f).1 = Z.field f := by
  cases X <;> cases Z <;> first | exact absurd rfl hZ | rfl

theorem WindowOption.window_call_snd (X : WindowOption) (f : WindowFlags) : (X.call f).2 = (X.call f).1 := by
  cases X <;> rfl

theorem RendererOption.renderer_call_field_self (X : RendererOption) (f : RendererFlags) :
    X.field (X.call f).1 = true := by
  cases X <;> rfl

set_option maxHeartbeats 1000000 in
theorem RendererOption.renderer_call_field_other (X Z : RendererOption) (f : RendererFlags) (hZ : Z ≠ X) :
    Z.field (X.call f).1 = Z.field f := by
  cases X <;> cases Z <;> first | exact absurd rfl hZ | rfl

theorem RendererOption.renderer_call_snd (X : RendererOption) (f : RendererFlags) : (X.call f).2 = (X.call f).1 := by
  cases X <;> rfl

/-! ## Claims -/

/-- C1 (evaluation at the failing input): `InitFlags().events().get()` is 0.  It therefore does
not contain `SDL_INIT_EVENTS`, although `events` is the one option recorded on the value and
the OR of the constants of the recorded options is `SDL_INIT_EVENTS`. -/
theorem InitFlags.get_events_is_zero :
    InitFlags.empty.events.2.mEvents = true ∧
    InitFlags.empty.events.2.get.2 = 0 ∧
    InitFlags.empty.events.2.get.2 &&& SDL_INIT_EVENTS ≠ SDL_INIT_EVENTS ∧
    orOfRecorded InitOption.const (fun o => o.field InitFlags.empty.events.2)
      InitOption.subsystems = SDL_INIT_EVENTS := by
  decide

/-- C2: once `everything()` has been called on an `InitFlags` value, `get()` is
`SDL_INIT_EVERYTHING`, whatever setters were chained before (`pre`) or after (`post`) the
call, both on the value returned by `everything()` and on its receiver. -/
theorem InitFlags.get_everything (f : InitFlags) (pre post : List InitOption) :
    (((f.chain pre).everything.2).chain post).get.2 = SDL_INIT_EVERYTHING ∧
    (((f.chain pre).everything.1).chain post).get.2 = SDL_INIT_EVERYTHING := by
  have h2 : (((f.chain pre).everything.2).chain post).mEverything = true :=
    InitFlags.chain_keeps_everything post _ rfl
  have h1 : (((f.chain pre).everything.1).chain post).mEverything = true :=
    InitFlags.chain_keeps_everything post _ rfl
  simp [InitFlags.get, h1, h2]

/-- C3: for every `WindowFlags` and every `RendererFlags` value, `get()` is the OR of the
constants of exactly the recorded options, taken over the 23 window options (respectively the
4 renderer options), each listed once; with nothing recorded the result is 0. -/
theorem WindowFlags_RendererFlags_get (wf : WindowFlags) (rf : RendererFlags) :
    wf.get.2 = orOfRecorded WindowOption.const (fun o => o.field wf) WindowOption.all ∧
    rf.get.2 = orOfRecorded RendererOption.const (fun o => o.field rf) RendererOption.all ∧
    WindowOption.all.length = 23 ∧ WindowOption.all.Nodup ∧
    RendererOption.all.length = 4 ∧ RendererOption.all.Nodup ∧
    WindowFlags.empty.get.2 = 0 ∧ RendererFlags.empty.get.2 = 0 := by
  refine ⟨?_, ?_, by decide, by decide, by decide, by decide, by decide, by decide⟩
  · simp only [WindowFlags.get, WindowOption.all, orOfRecorded_cons, orOfRecorded_nil,
      WindowOption.const, WindowOption.field, Nat.lor_assoc, Nat.zero_or, Nat.or_zero]
  · simp only [RendererFlags.get, RendererOption.all, orOfRecorded_cons, orOfRecorded_nil,
      RendererOption.const, RendererOption.field, Nat.lor_assoc, Nat.zero_or, Nat.or_zero]

/-- C9 (counterexample): with only `fullscreenDesktop` set on an empty `WindowFlags`, `get()`
is `0x1001`, which is not a single bit, and it shares bit 0 with the mask of `fullscreen`. -/
theorem WindowFlags.fullscreenDesktop_not_one_bit :
    WindowFlags.empty.fullscreenDesktop.2.get.2 = 0x1001 ∧
    (¬ ∃ k, WindowFlags.empty.fullscreenDesktop.2.get.2 = 2 ^ k) ∧
    WindowFlags.empty.fullscreenDesktop.2.get.2 &&& WindowFlags.empty.fullscreen.2.get.2 = 1 := by
  refine ⟨by decide, ?_, by decide⟩
  rintro ⟨k, hk⟩
  have h : WindowFlags.empty.fullscreenDesktop.2.get.2 = 4097 := by decide
  rw [h] at hk
  cases k with
  | zero => simp at hk
  | succ k => omega

/-- C9 (amended): a single option set on an empty flag set resolves to exactly one bit for
every `InitFlags` option other than `everything` and `events`, every `WindowFlags` option other
than `fullscreenDesktop` and every `RendererFlags` option, and two different such options of
one table give disjoint masks; `fullscreenDesktop` alone resolves to `0x1001`, that is
`SDL_WINDOW_FULLSCREEN ||| 0x1000`, disjoint from every window option other than
`fullscreen`. -/
theorem single_option_masks :
    (∀ o : InitOption, o ≠ InitOption.everything → o ≠ InitOption.events →
      ∃ k, (o.call InitFlags.empty).2.get.2 = 2 ^ k) ∧
    (∀ o : WindowOption, o ≠ WindowOption.fullscreenDesktop →
      ∃ k, (o.call WindowFlags.empty).2.get.2 = 2 ^ k) ∧
    (∀ o : RendererOption, ∃ k, (o.call RendererFlags.empty).2.get.2 = 2 ^ k) ∧
    (∀ o o2 : InitOption, o ≠ InitOption.everything → o ≠ InitOption.events →
      o2 ≠ InitOption.everything → o2 ≠ InitOption.events → o ≠ o2 →
      (o.call InitFlags.empty).2.get.2 &&& (o2.call InitFlags.empty).2.get.2 = 0) ∧
    (∀ o o2 : WindowOption, o ≠ WindowOption.fullscreenDesktop →
      (o2 = WindowOption.fullscreenDesktop → o ≠ WindowOption.fullscreen) → o ≠ o2 →
      (o.call WindowFlags.empty).2.get.2 &&& (o2.call WindowFlags.empty).2.get.2 = 0) ∧
    (∀ o o2 : RendererOption, o ≠ o2 →
      (o.call RendererFlags.empty).2.get.2 &&& (o2.call RendererFlags.empty).2.get.2 = 0) ∧
    (WindowOption.fullscreenDesktop.call WindowFlags.empty).2.get.2 = 0x1001 ∧
    (WindowOption.fullscreenDesktop.call WindowFlags.empty).2.get.2 =
      SDL_WINDOW_FULLSCREEN ||| 0x1000 := by
  refine ⟨?_, ?_, ?_, ?_, ?_, ?_, by decide, by decide⟩
  · intro o h1 h2
    cases o <;> first | exact absurd rfl h1 | exact absurd rfl h2 | exact exists_pow_of_bounded _ (by decide)
  · intro o h1
    cases o <;> first | exact absurd rfl h1 | exact exists_pow_of_bounded _ (by decide)
  · intro o
    cases o <;> exact exists_pow_of_bounded _ (by decide)
  · intro o o2 h1 h2 h3 h4 h5
    cases o <;> cases o2 <;>
      first
      | exact absurd rfl h1 | exact absurd rfl h2 | exact absurd rfl h3 | exact absurd rfl h4
      | exact absurd rfl h5 | decide
  · intro o o2 h1 h2 h3
    cases o <;> cases o2 <;>
      first | exact absurd rfl h1 | exact absurd rfl (h2 rfl) | exact absurd rfl h3 | decide
  · intro o o2 h3
    cases o <;> cases o2 <;> first | exact absurd rfl h3 | decide

/-- Witness for `single_option_masks`: `vulkan` alone is one bit, and `vulkan` and `metal` give
disjoint masks. -/
theorem single_option_masks_witness :
    (∃ k, (WindowOption.vulkan.call WindowFlags.empty).2.get.2 = 2 ^ k) ∧
    (WindowOption.vulkan.call WindowFlags.empty).2.get.2 &&&
      (WindowOption.metal.call WindowFlags.empty).2.get.2 = 0 :=
  ⟨single_option_masks.2.1 WindowOption.vulkan (by decide),
   single_option_masks.2.2.2.2.1 WindowOption.vulkan WindowOption.metal (by decide) (by decide)
     (by decide)⟩

/-- C4 (evaluation at the failing input): with a provider whose `SDL_Init` returns -1, the
constructor makes one `SDL_Init` call and leaves `mOK` false, and destroying the object still
makes one `SDL_Quit` call (the destructor has no `mOK` guard). -/
theorem SDL.dtor_quits_after_failed_init :
    (SDL.ctor ⟨fun _ _ => -1, fun _ _ _ _ _ _ _ => 0, fun _ _ _ _ => 0⟩ InitFlags.empty
      ⟨[], []⟩).1.mOK = false ∧
    (SDL.ctor ⟨fun _ _ => -1, fun _ _ _ _ _ _ _ => 0, fun _ _ _ _ => 0⟩ InitFlags.empty
      ⟨[], []⟩).2.initCalls = 1 ∧
    ((SDL.ctor ⟨fun _ _ => -1, fun _ _ _ _ _ _ _ => 0, fun _ _ _ _ => 0⟩ InitFlags.empty
      ⟨[], []⟩).1.dtor
      (SDL.ctor ⟨fun _ _ => -1, fun _ _ _ _ _ _ _ => 0, fun _ _ _ _ => 0⟩ InitFlags.empty
        ⟨[], []⟩).2).quitCalls = 1 := by
  decide

/-- C5: each of the four `Window` constructors and two `Renderer` constructors makes one create
call, stores the returned handle, and sets `ok()` to "the handle is not `NULL`"; the destructor
of any `Window` (`Renderer`) adds exactly the call `SDL_DestroyWindow(mIntern)`
(`SDL_DestroyRenderer(mIntern)`) to the log when `ok()` is true and no call when it is false. -/
theorem Window_Renderer_lifetime (P : Provider) (wf : WindowFlags) (rf : RendererFlags)
    (title : String) (x y w h : Int) (win : Window) (ren : Renderer) (w0 w1 : World) :
    ((Window.ctor_flags_xywh P wf title x y w h w0).2.calls =
        w0.calls ++ [Call.SDL_CreateWindow title x y w h wf.get.2] ∧
      (Window.ctor_flags_xywh P wf title x y w h w0).1.intern =
        P.createWindowResult w0 title x y w h wf.get.2 ∧
      (Window.ctor_flags_xywh P wf title x y w h w0).1.ok =
        (P.createWindowResult w0 title x y w h wf.get.2 != NULL)) ∧
    ((Window.ctor_flags_wh P wf title w h w0).2.calls =
        w0.calls ++ [Call.SDL_CreateWindow title SDL_WINDOWPOS_UNDEFINED SDL_WINDOWPOS_UNDEFINED
          w h wf.get.2] ∧
      (Window.ctor_flags_wh P wf title w h w0).1.intern =
        P.createWindowResult w0 title SDL_WINDOWPOS_UNDEFINED SDL_WINDOWPOS_UNDEFINED w h
          wf.get.2 ∧
      (Window.ctor_flags_wh P wf title w h w0).1.ok =
        (P.createWindowResult w0 title SDL_WINDOWPOS_UNDEFINED SDL_WINDOWPOS_UNDEFINED w h
          wf.get.2 != NULL)) ∧
    ((Window.ctor_xywh P title x y w h w0).2.calls =
        w0.calls ++ [Call.SDL_CreateWindow title x y w h 0] ∧
      (Window.ctor_xywh P title x y w h w0).1.intern =
        P.createWindowResult w0 title x y w h 0 ∧
      (Window.ctor_xywh P title x y w h w0).1.ok =
        (P.createWindowResult w0 title x y w h 0 != NULL)) ∧
    ((Window.ctor_wh P title w h w0).2.calls =
        w0.calls ++ [Call.SDL_CreateWindow title SDL_WINDOWPOS_UNDEFINED SDL_WINDOWPOS_UNDEFINED
          w h 0] ∧
      (Window.ctor_wh P title w h w0).1.intern =
        P.createWindowResult w0 title SDL_WINDOWPOS_UNDEFINED SDL_WINDOWPOS_UNDEFINED w h 0 ∧
      (Window.ctor_wh P title w h w0).1.ok =
        (P.createWindowResult w0 title SDL_WINDOWPOS_UNDEFINED SDL_WINDOWPOS_UNDEFINED w h 0
          != NULL)) ∧
    ((Renderer.ctor_flags P win rf w0).2.calls =
        w0.calls ++ [Call.SDL_CreateRenderer win.intern (-1) rf.get.2] ∧
      (Renderer.ctor_flags P win rf w0).1.intern =
        P.createRendererResult w0 win.intern (-1) rf.get.2 ∧
      (Renderer.ctor_flags P win rf w0).1.ok =
        (P.createRendererResult w0 win.intern (-1) rf.get.2 != NULL)) ∧
    ((Renderer.ctor_noflags P win w0).2.calls =
        w0.calls ++ [Call.SDL_CreateRenderer win.intern (-1) 0] ∧
      (Renderer.ctor_noflags P win w0).1.intern =
        P.createRendererResult w0 win.intern (-1) 0 ∧
      (Renderer.ctor_noflags P win w0).1.ok =
        (P.createRendererResult w0 win.intern (-1) 0 != NULL)) ∧
    (win.dtor w1).calls =
      w1.calls ++ (if win.ok = true then [Call.SDL_DestroyWindow win.intern] else []) ∧
    (ren.dtor w1).calls =
      w1.calls ++ (if ren.ok = true then [Call.SDL_DestroyRenderer ren.intern] else []) := by
  refine ⟨⟨rfl, rfl, rfl⟩, ⟨rfl, rfl, rfl⟩, ⟨rfl, rfl, rfl⟩, ⟨rfl, rfl, rfl⟩, ⟨rfl, rfl, rfl⟩,
    ⟨rfl, rfl, rfl⟩, ?_, ?_⟩
  · cases hok : win.mOK <;>
      simp [Window.dtor, Window.ok, Window.intern, SDL_DestroyWindow, World.record, hok]
  · cases hok : ren.mOK <;>
      simp [Renderer.dtor, Renderer.ok, Renderer.intern, SDL_DestroyRenderer, World.record, hok]

/-- C6: `color(1.0f, 0.0f, 0.0f)` and `color((Uint8)255, 0, 0)` issue the same provider call,
`SDL_SetRenderDrawColor(mIntern, 255, 0, 0, 255)`: the macro turns 1.0 into 255 and 0.0 into 0,
and the three-channel overload supplies alpha 255. -/
theorem Renderer.color_float_red_eq_color_byte_red (self : Renderer) (w : World) :
    self.color_float_rgb (Float32.ofInt 1) (Float32.ofInt 0) (Float32.ofInt 0) w =
      some (self.color_rgb 255 0 0 w) ∧
    self.color_rgb 255 0 0 w =
      w.record (Call.SDL_SetRenderDrawColor self.mIntern 255 0 0 255) ∧
    wsdl_float2uint8 (Float32.ofInt 1) = some 255 ∧
    wsdl_float2uint8 (Float32.ofInt 0) = some 0 := by
  have h1 : wsdl_float2uint8 (Float32.ofInt 1) = some 255 := by decide
  have h0 : wsdl_float2uint8 (Float32.ofInt 0) = some 0 := by decide
  refine ⟨?_, rfl, h1, h0⟩
  simp [Renderer.color_float_rgb, h1, h0]

/-- C7 (counterexample): the channel value 2.0 converts to the byte `0xFE` (254), not `0x00`:
`(int)(2.0f*255.0f)` is 510 and `510 & 0xFF` is 254. -/
theorem wsdl_float2uint8_two :
    (Float32.mul (Float32.ofInt 2) (Float32.ofInt 255)).toInt = some 510 ∧
    wsdl_float2uint8 (Float32.ofInt 2) = some 0xFE ∧
    wsdl_float2uint8 (Float32.ofInt 2) ≠ some 0x00 := by
  decide

/-- C7 (amended): when the truncated product `n = (int)(x*255.0f)` is at least 256, the
conversion yields `n mod 256`, the low eight bits of `n`, which is at least 256 below `n`; it
does not clamp: the byte is 255 only when `n mod 256` happens to be 255.  For the channel
value 2.0 the byte is `0xFE`. -/
theorem wsdl_float2uint8_wraps (x : Float32) (n : Int)
    (hn : (Float32.mul x (Float32.ofInt 255)).toInt = some n) (h : 256 ≤ n) :
    wsdl_float2uint8 x = some (n.toNat % 256) ∧
    n.toNat % 256 + 256 ≤ n.toNat ∧
    (n.toNat % 256 ≠ 255 → wsdl_float2uint8 x ≠ some 255) ∧
    wsdl_float2uint8 (Float32.ofInt 2) = some 0xFE := by
  have hx : wsdl_float2uint8 x = some (n.toNat % 256) := by
    simp only [wsdl_float2uint8, hn]
    rw [Int.land_255_of_nonneg n (by omega)]
  refine ⟨hx, by omega, ?_, by decide⟩
  intro hne
  rw [hx]
  simpa using hne

/-- Witness for `wsdl_float2uint8_wraps` at the channel value 2.0, whose truncated product is
510. -/
theorem wsdl_float2uint8_wraps_witness :
    wsdl_float2uint8 (Float32.ofInt 2) = some (Int.toNat 510 % 256) ∧
    Int.toNat 510 % 256 + 256 ≤ Int.toNat 510 ∧
    (Int.toNat 510 % 256 ≠ 255 → wsdl_float2uint8 (Float32.ofInt 2) ≠ some 255) ∧
    wsdl_float2uint8 (Float32.ofInt 2) = some 0xFE :=
  wsdl_float2uint8_wraps (Float32.ofInt 2) 510 (by decide) (by decide)

/-- C8: when the loop is given more evaluations of its condition than there are queued events,
`pollEvents` returns; the handler has then been applied once to each event that was queued at
call time, front of the queue first, and the queue is empty.  With the handler that appends
its argument to a list, the list of handled events is the queue at call time. -/
theorem SDL.pollEvents_drains {σ : Type} (self : SDL) (f : Event → σ → σ) (fuel : Nat) (s : σ)
    (w : World) (h : w.queue.length < fuel) :
    self.pollEvents f fuel s w =
      some (w.queue.foldl (fun acc e => f e acc) s, { w with queue := [] }) ∧
    self.pollEvents (fun e seen => seen ++ [e]) fuel [] w =
      some (w.queue, { w with queue := [] }) := by
  have key : ∀ (τ : Type) (g : Event → τ → τ) (fuel : Nat) (t : τ) (w : World),
      w.queue.length < fuel →
      self.pollEvents g fuel t w =
        some (w.queue.foldl (fun acc e => g e acc) t, { w with queue := [] }) := by
    intro τ g fuel
    induction fuel with
    | zero => intro t w hlt; omega
    | succ fuel ih =>
      intro t w hlt
      obtain ⟨calls, queue⟩ := w
      cases queue with
      | nil => simp [SDL.pollEvents, SDL_PollEvent]
      | cons e rest =>
        have hlt2 : rest.length < fuel := by simpa using hlt
        simpa [SDL.pollEvents, SDL_PollEvent] using ih (g e t) ⟨calls, rest⟩ hlt2
  refine ⟨key σ f fuel s w h, ?_⟩
  rw [key (List Event) (fun e seen => seen ++ [e]) fuel [] w h]
  have hfold : ∀ (q : List Event) (acc : List Event),
      q.foldl (fun acc e => acc ++ [e]) acc = acc ++ q := by
    intro q
    induction q with
    | nil => intro acc; simp
    | cons e q ih => intro acc; simp [ih]
  simp [hfold]

/-- Witness for `SDL.pollEvents_drains`: a queue of three events and fuel 4. -/
theorem SDL.pollEvents_drains_witness :
    SDL.pollEvents ⟨true⟩ (fun e n => 10 * n + e.type) 4 0 ⟨[], [⟨1, 0⟩, ⟨2, 0⟩, ⟨3, 0⟩]⟩ =
      some (List.foldl (fun acc e => 10 * acc + e.type) 0 [(⟨1, 0⟩ : Event), ⟨2, 0⟩, ⟨3, 0⟩],
        ⟨[], []⟩) ∧
    SDL.pollEvents ⟨true⟩ (fun e seen => seen ++ [e]) 4 [] ⟨[], [⟨1, 0⟩, ⟨2, 0⟩, ⟨3, 0⟩]⟩ =
      some ([⟨1, 0⟩, ⟨2, 0⟩, ⟨3, 0⟩], ⟨[], []⟩) :=
  SDL.pollEvents_drains ⟨true⟩ (fun e n => 10 * n + e.type) 4 0
    ⟨[], [⟨1, 0⟩, ⟨2, 0⟩, ⟨3, 0⟩]⟩ (by decide)

/-- C10: for each of the three flag builders and every setter `X`, the call `f.X()` leaves the
receiver with `X`'s field true and every other field as before, and returns a value equal to
the receiver after the call.  In the chain `f.X().Y()` the setter `Y` acts on that returned
value: the receiver `f` ends with `X` recorded and with `Y`'s field as it was before (when `Y`
is not `X`), the returned value has both `X` and `Y` recorded and every other field as in `f`.
`get()` leaves its receiver as it was. -/
theorem setters_frame :
    (∀ (X : InitOption) (f : InitFlags),
      X.field (X.call f).1 = true ∧
      (∀ Z : InitOption, Z ≠ X → Z.field (X.call f).1 = Z.field f) ∧
      (X.call f).2 = (X.call f).1) ∧
    (∀ (X Y : InitOption) (f : InitFlags),
      X.field (X.call f).1 = true ∧
      (Y ≠ X → Y.field (X.call f).1 = Y.field f) ∧
      X.field (Y.call (X.call f).2).2 = true ∧
      Y.field (Y.call (X.call f).2).2 = true ∧
      (∀ Z : InitOption, Z ≠ X → Z ≠ Y → Z.field (Y.call (X.call f).2).2 = Z.field f)) ∧
    (∀ f : InitFlags, f.get.1 = f) ∧
    (∀ (X : WindowOption) (f : WindowFlags),
      X.field (X.call f).1 = true ∧
      (∀ Z : WindowOption, Z ≠ X → Z.field (X.call f).1 = Z.field f) ∧
      (X.call f).2 = (X.call f).1) ∧
    (∀ (X Y : WindowOption) (f : WindowFlags),
      X.field (X.call f).1 = true ∧
      (Y ≠ X → Y.field (X.call f).1 = Y.field f) ∧
      X.field (Y.call (X.call f).2).2 = true ∧
      Y.field (Y.call (X.call f).2).2 = true ∧
      (∀ Z : WindowOption, Z ≠ X → Z ≠ Y → Z.field (Y.call (X.call f).2).2 = Z.field f)) ∧
    (∀ f : WindowFlags, f.get.1 = f) ∧
    (∀ (X : RendererOption) (f : RendererFlags),
      X.field (X.call f).1 = true ∧
      (∀ Z : RendererOption, Z ≠ X → Z.field (X.call f).1 = Z.field f) ∧
      (X.call f).2 = (X.call f).1) ∧
    (∀ (X Y : RendererOption) (f : RendererFlags),
      X.field (X.call f).1 = true ∧
      (Y ≠ X → Y.field (X.call f).1 = Y.field f) ∧
      X.field (Y.call (X.call f).2).2 = true ∧
      Y.field (Y.call (X.call f).2).2 = true ∧
      (∀ Z : RendererOption, Z ≠ X → Z ≠ Y → Z.field (Y.call (X.call f).2).2 = Z.field f)) ∧
    (∀ f : RendererFlags, f.get.1 = f) := by
  refine ⟨?_, ?_, ?_, ?_, ?_, ?_, ?_, ?_, ?_⟩
  · intro X f
    exact ⟨InitOption.init_call_field_self X f, fun Z hZ => InitOption.init_call_field_other X Z f hZ,
      InitOption.init_call_snd X f⟩
  · intro X Y f
    refine ⟨InitOption.init_call_field_self X f, fun hY => InitOption.init_call_field_other X Y f hY, ?_, ?_, ?_⟩
    · by_cases hXY : X = Y
      · subst hXY
        rw [InitOption.init_call_snd, InitOption.init_call_field_self]
      · rw [InitOption.init_call_snd, InitOption.init_call_field_other Y X _ hXY, InitOption.init_call_snd,
          InitOption.init_call_field_self]
    · rw [InitOption.init_call_snd, InitOption.init_call_field_self]
    · intro Z hX hY
      rw [InitOption.init_call_snd, InitOption.init_call_field_other Y Z _ hY, InitOption.init_call_snd,
        InitOption.init_call_field_other X Z _ hX]
  · intro f
    unfold InitFlags.get
    split <;> rfl
  · intro X f
    exact ⟨WindowOption.window_call_field_self X f, fun Z hZ => WindowOption.window_call_field_other X Z f hZ,
      WindowOption.window_call_snd X f⟩
  · intro X Y f
    refine ⟨WindowOption.window_call_field_self X f, fun hY => WindowOption.window_call_field_other X Y f hY, ?_, ?_, ?_⟩
    · by_cases hXY : X = Y
      · subst hXY
        rw [WindowOption.window_call_snd, WindowOption.window_call_field_self]
      · rw [WindowOption.window_call_snd, WindowOption.window_call_field_other Y X _ hXY, WindowOption.window_call_snd,
          WindowOption.window_call_field_self]
    · rw [WindowOption.window_call_snd, WindowOption.window_call_field_self]
    · intro Z hX hY
      rw [WindowOption.window_call_snd, WindowOption.window_call_field_other Y Z _ hY, WindowOption.window_call_snd,
        WindowOption.window_call_field_other X Z _ hX]
  · intro f
    rfl
  · intro X f
    exact ⟨RendererOption.renderer_call_field_self X f, fun Z hZ => RendererOption.renderer_call_field_other X Z f hZ,
      RendererOption.renderer_call_snd X f⟩
  · intro X Y f
    refine ⟨RendererOption.renderer_call_field_self X f, fun hY => RendererOption.renderer_call_field_other X Y f hY, ?_, ?_, ?_⟩
    · by_cases hXY : X = Y
      · subst hXY
        rw [RendererOption.renderer_call_snd, RendererOption.renderer_call_field_self]
      · rw [RendererOption.renderer_call_snd, RendererOption.renderer_call_field_other Y X _ hXY, RendererOption.renderer_call_snd,
          RendererOption.renderer_call_field_self]
    · rw [RendererOption.renderer_call_snd, RendererOption.renderer_call_field_self]
    · intro Z hX hY
      rw [RendererOption.renderer_call_snd, RendererOption.renderer_call_field_other Y Z _ hY, RendererOption.renderer_call_snd,
        RendererOption.renderer_call_field_other X Z _ hX]
  · intro f
    rfl

/-- Witness for `setters_frame`: after `WindowFlags().shown().resizable()` on a receiver `f`, the
receiver's `resizable` field is what it was, here clear. -/
theorem setters_frame_witness :
    WindowOption.resizable.field (WindowOption.shown.call WindowFlags.empty).1 =
      WindowOption.resizable.field WindowFlags.empty :=
  (setters_frame.2.2.2.2.1 WindowOption.shown WindowOption.resizable WindowFlags.empty).2.1
    (by decide)

end sdl
